import Mathlib

/-!
Verification of the FreeRTOS C++ wrapper layer (Semaphore, Mutex,
MutexRecursive, Queue, Task, and the tick/duration conversion helpers).

The wrapper methods from the repository headers are embedded as Lean
functions over an explicit model of the FreeRTOS kernel objects they
drive.  The kernel API functions (xSemaphoreCreateBinary, xQueueSendToBack,
vTaskGetInfo, ...) are not repository code; they are modelled here from the
FreeRTOS reference documentation that the wrapper source itself cites.
Blocking calls are modelled under the single-context assumption: while a
caller waits, no other task or interrupt mutates the object, so a resource
that is unavailable on entry is still unavailable when the wait elapses
(the timeout path).  Wrapper methods are translated statement by statement
from the headers, including their defects (for example, sendToFront calls
the back-insertion kernel function, and the counting-semaphore constructor
performs an extra give).
-/

namespace FRW

/-- Kernel model: the BaseType_t success constant pdTRUE (projdefs.h). -/
def pdTRUE : Int := 1

/-- Kernel model: the BaseType_t failure constant pdFALSE (projdefs.h). -/
def pdFALSE : Int := 0

/-- Kernel model: pdPASS, numerically equal to pdTRUE. -/
def pdPASS : Int := 1

/-- Kernel model: portMAX_DELAY for a 32-bit TickType_t port (0xFFFFFFFF). -/
def portMAX_DELAY : Nat := 4294967295

/-- Kernel model: the four kinds of kernel semaphore object a handle can
refer to.  The kind is fixed by which create function produced the handle. -/
inductive KSemType
  | binary
  | counting
  | mutex
  | recursiveMutex
deriving DecidableEq, Repr

/-- Kernel model: state of one kernel semaphore object.  count is the
current availability count, maxCount its ceiling, holder the owning task
(mutex kinds only) and recursionDepth the re-entry depth (recursive mutex
kind only). -/
structure KSem where
  semType : KSemType
  count : Nat
  maxCount : Nat
  holder : Option Nat
  recursionDepth : Nat
deriving DecidableEq, Repr

/-- Kernel model: xSemaphoreCreateBinary creates a binary semaphore in the
empty (taken) state. -/
def xSemaphoreCreateBinary : KSem :=
  { semType := .binary, count := 0, maxCount := 1, holder := none, recursionDepth := 0 }

/-- Kernel model: xSemaphoreCreateCounting creates a counting semaphore
whose count starts at uxInitialCount, bounded by uxMaxCount. -/
def xSemaphoreCreateCounting (uxMaxCount uxInitialCount : Nat) : KSem :=
  { semType := .counting, count := uxInitialCount, maxCount := uxMaxCount,
    holder := none, recursionDepth := 0 }

/-- Kernel model: xSemaphoreCreateMutex creates a mutex-type semaphore,
initially available.  The repository never calls it; it is included to
state what kind of kernel object the Mutex wrapper would need. -/
def xSemaphoreCreateMutex : KSem :=
  { semType := .mutex, count := 1, maxCount := 1, holder := none, recursionDepth := 0 }

/-- Kernel model: xSemaphoreCreateRecursiveMutex creates a recursive-mutex
semaphore, initially available.  The repository never calls it. -/
def xSemaphoreCreateRecursiveMutex : KSem :=
  { semType := .recursiveMutex, count := 1, maxCount := 1, holder := none, recursionDepth := 0 }

/-- Kernel model: xSemaphoreGive increments the count when below maxCount
and reports pdTRUE, otherwise leaves the semaphore unchanged and reports
pdFALSE. -/
def xSemaphoreGive (s : KSem) : Int × KSem :=
  if s.count < s.maxCount then (pdTRUE, { s with count := s.count + 1 }) else (pdFALSE, s)

/-- Kernel model: xSemaphoreTake decrements a positive count and reports
pdTRUE; on a zero count the wait elapses (single-context assumption) and it
reports pdFALSE. -/
def xSemaphoreTake (s : KSem) (xTicksToWait : Nat) : Int × KSem :=
  if 0 < s.count then (pdTRUE, { s with count := s.count - 1 }) else (pdFALSE, s)

/-- Kernel model: uxSemaphoreGetCount returns the current count. -/
def uxSemaphoreGetCount (s : KSem) : Nat := s.count

/-- Kernel model: xSemaphoreGetMutexHolder returns the holding task for a
mutex-kind semaphore and NULL (none) for any other semaphore kind. -/
def xSemaphoreGetMutexHolder (s : KSem) : Option Nat :=
  if s.semType = KSemType.mutex ∨ s.semType = KSemType.recursiveMutex then s.holder else none

/-- Kernel model: whether the kernel applies priority inheritance to the
object; the kernel does so exactly for the mutex kinds. -/
def KSem.hasPriorityInheritance (s : KSem) : Bool :=
  decide (s.semType = KSemType.mutex ∨ s.semType = KSemType.recursiveMutex)

/-- Kernel model: the recursive-mutex API has the documented precondition
that the handle was created by xSemaphoreCreateRecursiveMutex; calling it
on any other object kind is a kernel misuse with no defined behaviour. -/
inductive KernelMisuse
  | notARecursiveMutex
deriving DecidableEq, Repr

/-- Kernel model: xSemaphoreTakeRecursive.  On a recursive mutex: the
holder re-enters (depth + 1); a free mutex is acquired at depth 1; a held
mutex refuses another caller after the wait elapses.  On any other
semaphore kind the documented precondition is violated. -/
def xSemaphoreTakeRecursive (s : KSem) (caller : Nat) (xTicksToWait : Nat) :
    Except KernelMisuse (Int × KSem) :=
  if s.semType ≠ KSemType.recursiveMutex then .error .notARecursiveMutex
  else
    match s.holder with
    | some h =>
      if h = caller then .ok (pdTRUE, { s with recursionDepth := s.recursionDepth + 1 })
      else .ok (pdFALSE, s)
    | none => .ok (pdTRUE, { s with holder := some caller, recursionDepth := 1, count := 0 })

/-- Kernel model: xSemaphoreGiveRecursive.  On a recursive mutex: the
holder decrements the depth, releasing true availability only at depth
zero; a non-holder (in particular at depth zero) is refused.  On any other
semaphore kind the documented precondition is violated. -/
def xSemaphoreGiveRecursive (s : KSem) (caller : Nat) :
    Except KernelMisuse (Int × KSem) :=
  if s.semType ≠ KSemType.recursiveMutex then .error .notARecursiveMutex
  else
    match s.holder with
    | some h =>
      if h = caller then
        if s.recursionDepth ≤ 1 then
          .ok (pdTRUE, { s with holder := none, recursionDepth := 0, count := 1 })
        else .ok (pdTRUE, { s with recursionDepth := s.recursionDepth - 1 })
      else .ok (pdFALSE, s)
    | none => .ok (pdFALSE, s)

/-- The Semaphore wrapper object (Semaphore.hpp): a kernel handle, the
const maxCount member, and the mutable defaultBlockTime member initialised
to 0. -/
structure Semaphore where
  sem : KSem
  maxCount : Nat
  defaultBlockTime : Nat
deriving DecidableEq, Repr

/-- Semaphore::give, Semaphore.hpp line 234: returns whether
xSemaphoreGive reported pdTRUE. -/
def Semaphore.give (s : Semaphore) : Bool × Semaphore :=
  let r := xSemaphoreGive s.sem
  (decide (r.1 = pdTRUE), { s with sem := r.2 })

/-- Semaphore::Semaphore(void), Semaphore.hpp line 74: maxCount is 1, the
handle comes from xSemaphoreCreateBinary(), and the constructor body then
calls give(), discarding its result. -/
def Semaphore.construct : Semaphore :=
  (Semaphore.give { sem := xSemaphoreCreateBinary, maxCount := 1, defaultBlockTime := 0 }).2

/-- Semaphore::Semaphore(UBaseType_t, UBaseType_t), Semaphore.hpp line 96:
maxCount is the first argument, the handle comes from
xSemaphoreCreateCounting(maxCount, initialCount), and the constructor body
then calls give(), discarding its result. -/
def Semaphore.constructCounting (maxSemphrCount initialCount : Nat) : Semaphore :=
  (Semaphore.give
    { sem := xSemaphoreCreateCounting maxSemphrCount initialCount,
      maxCount := maxSemphrCount, defaultBlockTime := 0 }).2

/-- Semaphore::getCount, Semaphore.hpp line 156: uxSemaphoreGetCount. -/
def Semaphore.getCount (s : Semaphore) : Nat := uxSemaphoreGetCount s.sem

/-- Semaphore::take(TickType_t), Semaphore.hpp line 175: returns whether
xSemaphoreTake reported pdTRUE. -/
def Semaphore.take (s : Semaphore) (ticksToWait : Nat) : Bool × Semaphore :=
  let r := xSemaphoreTake s.sem ticksToWait
  (decide (r.1 = pdTRUE), { s with sem := r.2 })

/-- Semaphore::take(void), Semaphore.hpp line 195: calls take with the
defaultBlockTime member (initially 0). -/
def Semaphore.takeDefault (s : Semaphore) : Bool × Semaphore :=
  s.take s.defaultBlockTime

/-- Semaphore::getHolder, Semaphore.hpp line 136: xSemaphoreGetMutexHolder. -/
def Semaphore.getHolder (s : Semaphore) : Option Nat := xSemaphoreGetMutexHolder s.sem

/-- The Mutex wrapper (Mutex.hpp): public Semaphore, no own members. -/
structure Mutex where
  toSemaphore : Semaphore
deriving DecidableEq, Repr

/-- Mutex::Mutex(void), Mutex.hpp line 559: delegates to the Semaphore
default constructor, hence to xSemaphoreCreateBinary, and adds nothing. -/
def Mutex.construct : Mutex := ⟨Semaphore.construct⟩

/-- The MutexRecursive wrapper (MutexRecursive.hpp): public Mutex, no own
members. -/
structure MutexRecursive where
  toMutex : Mutex
deriving DecidableEq, Repr

/-- MutexRecursive::MutexRecursive(void), MutexRecursive.hpp line 37:
delegates to Mutex(), hence to the binary-semaphore constructor. -/
def MutexRecursive.construct : MutexRecursive := ⟨Mutex.construct⟩

/-- The kernel object behind a MutexRecursive wrapper. -/
def MutexRecursive.sem (m : MutexRecursive) : KSem := m.toMutex.toSemaphore.sem

/-- MutexRecursive::takeRecursive(TickType_t), MutexRecursive.hpp line 61:
xSemaphoreTakeRecursive on the inherited handle; caller identifies the
invoking task. -/
def MutexRecursive.takeRecursive (m : MutexRecursive) (caller : Nat) (ticksToWait : Nat) :
    Except KernelMisuse (Bool × MutexRecursive) :=
  match xSemaphoreTakeRecursive m.sem caller ticksToWait with
  | .error e => .error e
  | .ok r => .ok (decide (r.1 = pdTRUE), ⟨⟨{ m.toMutex.toSemaphore with sem := r.2 }⟩⟩)

/-- MutexRecursive::giveRecursive, MutexRecursive.hpp line 100:
xSemaphoreGiveRecursive on the inherited handle. -/
def MutexRecursive.giveRecursive (m : MutexRecursive) (caller : Nat) :
    Except KernelMisuse (Bool × MutexRecursive) :=
  match xSemaphoreGiveRecursive m.sem caller with
  | .error e => .error e
  | .ok r => .ok (decide (r.1 = pdTRUE), ⟨⟨{ m.toMutex.toSemaphore with sem := r.2 }⟩⟩)

/-- Kernel model: state of one kernel queue object, a bounded buffer of
items of type T, front of the list first. -/
structure KQueue (T : Type) where
  capacity : Nat
  items : List T
deriving DecidableEq, Repr

/-- Kernel model: xQueueCreate produces an empty queue of the requested
length. -/
def xQueueCreate (T : Type) (uxQueueLength : Nat) : KQueue T :=
  { capacity := uxQueueLength, items := [] }

/-- Kernel model: xQueueSendToBack appends the item when a slot is free
and reports pdTRUE; on a full queue the wait elapses (single-context
assumption) and it reports failure. -/
def xQueueSendToBack {T : Type} (q : KQueue T) (item : T) (xTicksToWait : Nat) :
    Int × KQueue T :=
  if q.items.length < q.capacity then (pdTRUE, { q with items := q.items ++ [item] })
  else (pdFALSE, q)

/-- Kernel model: xQueueSendToFront prepends the item when a slot is free
and reports pdTRUE; included to state what front insertion would be.  The
repository wrapper never calls it. -/
def xQueueSendToFront {T : Type} (q : KQueue T) (item : T) (xTicksToWait : Nat) :
    Int × KQueue T :=
  if q.items.length < q.capacity then (pdTRUE, { q with items := item :: q.items })
  else (pdFALSE, q)

/-- Kernel model: xQueueSendToBackFromISR, the non-blocking variant. -/
def xQueueSendToBackFromISR {T : Type} (q : KQueue T) (item : T) : Int × KQueue T :=
  xQueueSendToBack q item 0

/-- Kernel model: xQueueReceive pops the head into the buffer and reports
pdTRUE; on an empty queue the wait elapses (single-context assumption),
the buffer is not written (none) and it reports failure. -/
def xQueueReceive {T : Type} (q : KQueue T) (xTicksToWait : Nat) :
    Int × Option T × KQueue T :=
  match q.items with
  | [] => (pdFALSE, none, q)
  | v :: rest => (pdTRUE, some v, { q with items := rest })

/-- Kernel model: xQueueReceiveFromISR, the non-blocking variant. -/
def xQueueReceiveFromISR {T : Type} (q : KQueue T) : Int × Option T × KQueue T :=
  xQueueReceive q 0

/-- Kernel model: uxQueueMessagesWaiting returns the number of queued
items. -/
def uxQueueMessagesWaiting {T : Type} (q : KQueue T) : Nat := q.items.length

/-- Outcome of a failed C assert(): the program aborts instead of
returning to the caller. -/
inductive CAssert
  | failed
deriving DecidableEq, Repr

/-- The Queue wrapper object (Queue.hpp): a kernel handle, the const
length member, and the two mutable default wait-time members, initialised
to portMAX_DELAY and 0. -/
structure Queue (T : Type) where
  kq : KQueue T
  length : Nat
  defaultMaxTicksToWait : Nat
  defaultMinTicksToWait : Nat
deriving DecidableEq, Repr

/-- Queue(UBaseType_t), Queue.hpp line 366: the handle comes from
xQueueCreate(length, sizeof(T)). -/
def Queue.construct (T : Type) (queueLength : Nat) : Queue T :=
  { kq := xQueueCreate T queueLength, length := queueLength,
    defaultMaxTicksToWait := portMAX_DELAY, defaultMinTicksToWait := 0 }

/-- Queue::sendToBack(T, TickType_t), Queue.hpp line 453: returns whether
xQueueSendToBack reported pdTRUE. -/
def Queue.sendToBack {T : Type} (q : Queue T) (itemToQueue : T) (ticksToWait : Nat) :
    Bool × Queue T :=
  let r := xQueueSendToBack q.kq itemToQueue ticksToWait
  (decide (r.1 = pdTRUE), { q with kq := r.2 })

/-- Queue::sendToBack(T), Queue.hpp line 476: calls sendToBack with the
defaultMinTicksToWait member. -/
def Queue.sendToBackDefault {T : Type} (q : Queue T) (itemToQueue : T) : Bool × Queue T :=
  q.sendToBack itemToQueue q.defaultMinTicksToWait

/-- Queue::sendToBackFromISR, Queue.hpp line 497: returns whether
xQueueSendToBackFromISR reported pdTRUE. -/
def Queue.sendToBackFromISR {T : Type} (q : Queue T) (itemToQueue : T) : Bool × Queue T :=
  let r := xQueueSendToBackFromISR q.kq itemToQueue
  (decide (r.1 = pdTRUE), { q with kq := r.2 })

/-- Queue::sendToFront(T, TickType_t), Queue.hpp line 518: its body calls
xQueueSendToBack, not xQueueSendToFront (Semaphore.hpp source line 520). -/
def Queue.sendToFront {T : Type} (q : Queue T) (itemToQueue : T) (ticksToWait : Nat) :
    Bool × Queue T :=
  let r := xQueueSendToBack q.kq itemToQueue ticksToWait
  (decide (r.1 = pdTRUE), { q with kq := r.2 })

/-- Queue::sendToFront(T), Queue.hpp line 541: calls sendToFront with the
defaultMinTicksToWait member. -/
def Queue.sendToFrontDefault {T : Type} (q : Queue T) (itemToQueue : T) : Bool × Queue T :=
  q.sendToFront itemToQueue q.defaultMinTicksToWait

/-- Queue::sendToFrontFromISR, Queue.hpp line 562: its body calls
xQueueSendToBackFromISR, not a front-insertion kernel call. -/
def Queue.sendToFrontFromISR {T : Type} (q : Queue T) (itemToQueue : T) : Bool × Queue T :=
  let r := xQueueSendToBackFromISR q.kq itemToQueue
  (decide (r.1 = pdTRUE), { q with kq := r.2 })

/-- Queue::receive(TickType_t), Queue.hpp line 582: declares a local
buffer, calls xQueueReceive into it, then executes assert(ret == pdTRUE);
when the return status is not pdTRUE the assertion fails and the program
aborts instead of returning, which the embedding records as an error
value. -/
def Queue.receive {T : Type} (q : Queue T) (ticksToWait : Nat) :
    Except CAssert (T × Queue T) :=
  let r := xQueueReceive q.kq ticksToWait
  if r.1 = pdTRUE then
    match r.2.1 with
    | some v => .ok (v, { q with kq := r.2.2 })
    | none => .error .failed
  else .error .failed

/-- Queue::receive(void), Queue.hpp line 613: calls receive with the
defaultMaxTicksToWait member (initially portMAX_DELAY). -/
def Queue.receiveDefault {T : Type} (q : Queue T) : Except CAssert (T × Queue T) :=
  q.receive q.defaultMaxTicksToWait

/-- Queue::receiveFromISR, Queue.hpp line 634: declares a local buffer,
calls xQueueReceiveFromISR into it, discards the returned status, and
returns the buffer.  The buffer argument models the indeterminate initial
content of the uninitialised local variable, which is what the caller gets
when nothing was dequeued. -/
def Queue.receiveFromISR {T : Type} (q : Queue T) (buffer : T) : T × Queue T :=
  let r := xQueueReceiveFromISR q.kq
  match r.2.1 with
  | some v => (v, { q with kq := r.2.2 })
  | none => (buffer, { q with kq := r.2.2 })

/-- Queue::messagesWaiting, Queue.hpp line 657: uxQueueMessagesWaiting. -/
def Queue.messagesWaiting {T : Type} (q : Queue T) : Nat := uxQueueMessagesWaiting q.kq

/-- Kernel model: the eTaskState enumeration (task.h). -/
inductive ETaskState
  | eRunning
  | eReady
  | eBlocked
  | eSuspended
  | eDeleted
  | eInvalid
deriving DecidableEq, Repr

/-- Kernel model: ambient kernel task state.  Task handles are numbers;
priorities, stack headroom (high-water mark in words) and scheduling state
are per-handle; currentTask is the handle of the task executing the call. -/
structure TaskEnv where
  priorities : Nat → Nat
  currentTask : Nat
  stackHeadroom : Nat → Nat
  states : Nat → ETaskState

/-- Kernel model: uxTaskPriorityGet; a NULL handle (none) designates the
calling task. -/
def uxTaskPriorityGet (xTask : Option Nat) (env : TaskEnv) : Nat :=
  env.priorities (xTask.getD env.currentTask)

/-- Kernel model: vTaskPrioritySet; a NULL handle (none) designates the
calling task. -/
def vTaskPrioritySet (xTask : Option Nat) (uxNewPriority : Nat) (env : TaskEnv) : TaskEnv :=
  let target := xTask.getD env.currentTask
  { env with priorities := fun h => if h = target then uxNewPriority else env.priorities h }

/-- Kernel model: the TaskStatus_t snapshot filled in by vTaskGetInfo
(fields not needed by the claims are omitted). -/
structure TaskStatus where
  xHandle : Nat
  uxCurrentPriority : Nat
  eCurrentState : ETaskState
  usStackHighWaterMark : Nat
deriving DecidableEq, Repr

/-- Kernel model: vTaskGetInfo fills a snapshot for the given task.  The
usStackHighWaterMark field is computed only when the xGetFreeStackSpace
flag argument is nonzero, otherwise it is set to 0.  When the eState
argument is eInvalid the kernel looks the state up, otherwise the passed
value is reported verbatim. -/
def vTaskGetInfo (xTask : Nat) (xGetFreeStackSpace : Int) (eState : ETaskState)
    (env : TaskEnv) : TaskStatus :=
  { xHandle := xTask,
    uxCurrentPriority := env.priorities xTask,
    eCurrentState := if eState = ETaskState.eInvalid then env.states xTask else eState,
    usStackHighWaterMark := if xGetFreeStackSpace ≠ 0 then env.stackHeadroom xTask else 0 }

/-- The Task wrapper object (Task.hpp): the kernel handle plus the mutable
snapshot members.  The BaseType_t member freeStackSpace is declared at
Task.hpp line 63 and is never initialised by any constructor; its value in
a given object is therefore arbitrary, which the embedding captures by
quantifying over it. -/
structure Task where
  handle : Nat
  status : TaskStatus
  freeStackSpace : Int
deriving DecidableEq, Repr

/-- Task::getInfo(void), Task.hpp line 401: vTaskGetInfo(handle, &status,
freeStackSpace, eInvalid).  The status member receives the snapshot; the
freeStackSpace member is passed by value as the xGetFreeStackSpace flag
and is not written. -/
def Task.getInfo (t : Task) (env : TaskEnv) : TaskStatus × Task :=
  let st := vTaskGetInfo t.handle t.freeStackSpace ETaskState.eInvalid env
  (st, { t with status := st })

/-- Task::getInfo(eTaskState), Task.hpp line 376: same call with the given
eState argument. -/
def Task.getInfoWithState (t : Task) (eState : ETaskState) (env : TaskEnv) :
    TaskStatus × Task :=
  let st := vTaskGetInfo t.handle t.freeStackSpace eState env
  (st, { t with status := st })

/-- Task::getFreeStackSpace, Task.hpp line 422: calls getInfo() and then
returns the freeStackSpace member. -/
def Task.getFreeStackSpace (t : Task) (env : TaskEnv) : Int × Task :=
  let r := t.getInfo env
  (r.2.freeStackSpace, r.2)

/-- Task::getPriority, Task.hpp line 266: uxTaskPriorityGet(NULL) - the
handle member is not passed, so the kernel reports the priority of
whichever task makes the call. -/
def Task.getPriority (t : Task) (env : TaskEnv) : Nat :=
  uxTaskPriorityGet none env

/-- Task::setPriority, Task.hpp line 283: vTaskPrioritySet(handle,
newPriority) on the wrapped task. -/
def Task.setPriority (t : Task) (newPriority : Nat) (env : TaskEnv) : TaskEnv :=
  vTaskPrioritySet (some t.handle) newPriority env

/-- TickType_t is a 32-bit unsigned integer on this port; its modulus. -/
def TickWidth : Nat := 4294967296

/-- FreeRTOS::convertToTicks(std::chrono::milliseconds), Timer.hpp source
line 558: msec.count() / portTICK_PERIOD_MS, integer division truncating
toward zero, result converted to TickType_t.  portTICK_PERIOD_MS is the
build-time tick period in milliseconds, a parameter here. -/
def convertToTicks (portTickPeriodMS : Nat) (msecCount : Nat) : Nat :=
  (msecCount / portTickPeriodMS) % TickWidth

/-- convertToTime, Timer.hpp source line 632: milliseconds(ticks *
portTICK_PERIOD_MS); the product is computed in TickType_t arithmetic, so
it wraps modulo 2^32 before widening to the chrono representation. -/
def convertToTime (portTickPeriodMS : Nat) (ticks : Nat) : Nat :=
  (ticks * portTickPeriodMS) % TickWidth

/-- Claim C1: a sendToFront call inserts the item at the head of the
queue, so the next receive returns it even if other items were already
queued via sendToBack.  The code violates this: Queue::sendToFront and
Queue::sendToFrontFromISR both call the back-insertion kernel function,
contradicting their own doc comments.  At the failing input (capacity-2
queue, sendToBack 10 then sendToFront 20) the next receive returns 10, the
longer-queued sendToBack item, not 20. -/
theorem C1_sendToFront_appends_at_back :
    (Except.map Prod.fst
        ((((Queue.construct Nat 2).sendToBack 10 0).2.sendToFront 20 0).2.receive 0)
      = Except.ok 10)
    ∧ (Except.map Prod.fst
        ((((Queue.construct Nat 2).sendToBack 10 0).2.sendToFront 20 0).2.receive 0)
      ≠ Except.ok 20)
    ∧ (Except.map Prod.fst
        ((((Queue.construct Nat 2).sendToBack 10 0).2.sendToFrontFromISR 20).2.receive 0)
      = Except.ok 10) := by
  refine ⟨rfl, ?_, rfl⟩
  intro h
  simp [Queue.construct, Queue.sendToBack, Queue.sendToFront, Queue.receive,
    xQueueCreate, xQueueSendToBack, xQueueReceive, pdTRUE, pdFALSE, Except.map] at h

/-- Claim C2: a MutexRecursive taken twice by the same owner needs exactly
two giveRecursive calls before another take succeeds, and a giveRecursive
at depth zero fails.  The code violates its own documentation: the
constructor chain MutexRecursive() -> Mutex() -> Semaphore() creates a
plain binary semaphore via xSemaphoreCreateBinary, never
xSemaphoreCreateRecursiveMutex, while the takeRecursive and giveRecursive
doc comments require a handle created by the recursive-mutex create call.
The kernel object therefore carries no recursion depth, and every
takeRecursive or giveRecursive call violates the documented kernel
precondition. -/
theorem C2_mutexRecursive_wraps_binary_semaphore :
    MutexRecursive.construct.sem.semType = KSemType.binary
    ∧ MutexRecursive.construct.sem.semType ≠ KSemType.recursiveMutex
    ∧ MutexRecursive.construct.takeRecursive 1 0
        = Except.error KernelMisuse.notARecursiveMutex
    ∧ MutexRecursive.construct.giveRecursive 1
        = Except.error KernelMisuse.notARecursiveMutex := by
  refine ⟨rfl, by decide, rfl, rfl⟩

/-- Claim C3: every Mutex is constructed as a kernel mutex-type semaphore
with maxCount 1 and kernel-level priority inheritance.  The code violates
this: Mutex() delegates to the Semaphore default constructor, so the
kernel object comes from xSemaphoreCreateBinary - a binary semaphore, not
the mutex kind xSemaphoreCreateMutex would create.  Binary semaphores get
no priority inheritance and no holder tracking (getHolder is NULL even
while a task has taken it).  Only the maxCount = 1 part of the claim
holds. -/
theorem C3_mutex_is_binary_semaphore :
    Mutex.construct.toSemaphore.sem.semType = KSemType.binary
    ∧ Mutex.construct.toSemaphore.sem.semType ≠ xSemaphoreCreateMutex.semType
    ∧ Mutex.construct.toSemaphore.sem.hasPriorityInheritance = false
    ∧ Mutex.construct.toSemaphore.maxCount = 1
    ∧ Mutex.construct.toSemaphore.getHolder = none := by
  refine ⟨rfl, by decide, rfl, rfl, rfl⟩

/-- Claim C4: getCount() immediately after constructing a counting
Semaphore with (maxCount, initialCount) equals initialCount; with (5, 2)
it equals 2.  The code violates its own constructor contract: after
xSemaphoreCreateCounting(5, 2) the constructor body calls give(), so
getCount() is 3, not the documented initial count 2.  (The later parts of
the claimed scenario - three takes reaching 0, a fourth failing, one give
reaching 1 - happen to hold from the shifted count as well.) -/
theorem C4_counting_constructor_extra_give :
    (Semaphore.constructCounting 5 2).getCount = 3
    ∧ (Semaphore.constructCounting 5 2).getCount ≠ 2 := by
  refine ⟨rfl, by decide⟩

/-- Claim C5, counterexample: the claim says a receive whose wait elapses
on an empty queue reports the timeout as an ordinary failure result to the
caller rather than aborting.  On the concrete input - an empty capacity-3
queue, receive with wait 5 - the embedded Queue::receive does not return
any result to the caller: xQueueReceive reports failure and the method
body executes assert(ret == pdTRUE), which aborts. -/
theorem C5_receive_on_empty_aborts :
    (Queue.construct Nat 3).receive 5 = Except.error CAssert.failed := rfl

/-- Claim C5, amended: a receive whose wait time elapses on an empty queue
does not report the timeout as a result at all - it fails the internal
assertion ret == pdTRUE and aborts (in a build with asserts disabled it
would return an indeterminate buffer); the boolean-returning operations do
report failure as an ordinary false result, for example sendToBack on a
full queue. -/
theorem C5_receive_asserts_sends_report (T : Type) (q : Queue T) (ticksToWait : Nat)
    (hEmpty : q.kq.items = []) (item : T) (qf : Queue T)
    (hFull : qf.kq.items.length = qf.kq.capacity) :
    q.receive ticksToWait = Except.error CAssert.failed
    ∧ (qf.sendToBack item 0).1 = false := by
  constructor
  · simp [Queue.receive, xQueueReceive, hEmpty, pdFALSE, pdTRUE]
  · simp [Queue.sendToBack, xQueueSendToBack, hFull, pdFALSE, pdTRUE]

/-- Witness for the amended claim C5, at an empty capacity-2 queue with
wait 7 and a full capacity-1 queue. -/
theorem C5_receive_asserts_sends_report_witness :
    (Queue.construct Nat 2).receive 7 = Except.error CAssert.failed
    ∧ ((((Queue.construct Nat 1).sendToBack 5 0).2).sendToBack 6 0).1 = false :=
  C5_receive_asserts_sends_report Nat (Queue.construct Nat 2) 7 rfl 6
    (((Queue.construct Nat 1).sendToBack 5 0).2) (by decide)

/-- Claim C6: a binary Semaphore fresh from the default constructor has
getCount() == 1, a first take() succeeds, and a second immediate take with
zero wait fails.  Confirmed: the constructor creates the semaphore empty
and pre-loads it with one give(), the first take() (default block time 0)
consumes it, and the second take(0) finds count 0 and fails. -/
theorem C6_binary_semaphore_take_once :
    Semaphore.construct.getCount = 1
    ∧ Semaphore.construct.takeDefault.1 = true
    ∧ (Semaphore.construct.takeDefault.2.take 0).1 = false
    ∧ Semaphore.construct.takeDefault.2.getCount = 0 := by
  refine ⟨rfl, rfl, rfl, rfl⟩

/-- Claim C7: convertToTicks(convertToTime(t)) == t on the millisecond
path, with truncating division on sub-tick durations.  Confirmed for every
tick period P > 0 and every tick count whose product with P fits the
32-bit TickType_t (on the canonical 1000 Hz configuration P = 1, so that
is every tick count); convertToTime always produces an exact multiple of
P, so the truncating division loses nothing on the round trip. -/
theorem C7_convert_round_trip (P t : Nat) (hP : 0 < P)
    (hNoWrap : t * P < TickWidth) :
    convertToTicks P (convertToTime P t) = t := by
  unfold convertToTicks convertToTime
  rw [Nat.mod_eq_of_lt hNoWrap, Nat.mul_div_cancel _ hP]
  exact Nat.mod_eq_of_lt (lt_of_le_of_lt (Nat.le_mul_of_pos_right t hP) hNoWrap)

/-- Witness for claim C7 at P = 1 (the 1000 Hz tick configuration) and
t = 5. -/
theorem C7_convert_round_trip_witness :
    0 < 1 ∧ 5 * 1 < TickWidth ∧ convertToTicks 1 (convertToTime 1 5) = 5 :=
  ⟨by decide, by decide, C7_convert_round_trip 1 5 (by decide) (by decide)⟩

/-- A concrete kernel task environment for claim C8: task handles carry
their own number as priority, and the task making the call is handle 2. -/
def C8_env : TaskEnv :=
  { priorities := fun h => h, currentTask := 2,
    stackHeadroom := fun _ => 0, states := fun _ => ETaskState.eReady }

/-- A concrete Task wrapper object for claim C8, wrapping handle 1. -/
def C8_task : Task :=
  { handle := 1,
    status := { xHandle := 1, uxCurrentPriority := 0,
                eCurrentState := ETaskState.eReady, usStackHighWaterMark := 0 },
    freeStackSpace := 0 }

/-- Claim C8, counterexample: the claim says getPriority() returns the
priority of the wrapped task regardless of which task invokes the query.
With the wrapped task at handle 1 (priority 1) queried while handle 2
(priority 2) is the calling task, getPriority() returns 2, not the wrapped
task priority 1: the method passes NULL instead of the handle member. -/
theorem C8_getPriority_ignores_handle :
    C8_task.getPriority C8_env ≠ C8_env.priorities C8_task.handle := by
  decide

/-- Claim C8, amended: getPriority() returns the live kernel priority of
the calling task (it passes NULL to uxTaskPriorityGet), so it agrees with
the wrapped task only when the wrapped task itself makes the call;
setPriority() does mutate the wrapped task, via the stored handle. -/
theorem C8_getPriority_is_callers (t : Task) (env : TaskEnv) (newPriority : Nat) :
    t.getPriority env = env.priorities env.currentTask
    ∧ (env.currentTask = t.handle → t.getPriority env = env.priorities t.handle)
    ∧ (t.setPriority newPriority env).priorities t.handle = newPriority := by
  refine ⟨rfl, ?_, ?_⟩
  · intro h
    show env.priorities env.currentTask = env.priorities t.handle
    rw [h]
  · simp [Task.setPriority, vTaskPrioritySet]

/-- Witness for the amended claim C8 at the concrete environment and task
object above. -/
theorem C8_getPriority_is_callers_witness :
    C8_task.getPriority C8_env = C8_env.priorities C8_env.currentTask
    ∧ (C8_env.currentTask = C8_task.handle →
        C8_task.getPriority C8_env = C8_env.priorities C8_task.handle)
    ∧ (C8_task.setPriority 4 C8_env).priorities C8_task.handle = 4 :=
  C8_getPriority_is_callers C8_task C8_env 4

/-- A concrete kernel task environment for claim C9: every task has
priority 3 and stack headroom 100 words. -/
def C9_env : TaskEnv :=
  { priorities := fun _ => 3, currentTask := 0,
    stackHeadroom := fun _ => 100, states := fun _ => ETaskState.eReady }

/-- A concrete Task wrapper object for claim C9: its never-initialised
freeStackSpace member happens to hold 7. -/
def C9_task : Task :=
  { handle := 0,
    status := { xHandle := 0, uxCurrentPriority := 0,
                eCurrentState := ETaskState.eReady, usStackHighWaterMark := 0 },
    freeStackSpace := 7 }

/-- Claim C9: getFreeStackSpace() forces a fresh getInfo() snapshot and
returns the stack-headroom field of that snapshot.  The code violates its
own doc comment (which says the call updates the freeStackSpace member):
vTaskGetInfo receives freeStackSpace by value as its xGetFreeStackSpace
flag and never writes it, so getFreeStackSpace() returns the stale,
never-initialised member for every environment - here 7, while the fresh
snapshot reports a headroom of 100. -/
theorem C9_getFreeStackSpace_returns_stale_member :
    (∀ (env : TaskEnv) (t : Task), (t.getFreeStackSpace env).1 = t.freeStackSpace)
    ∧ (C9_task.getFreeStackSpace C9_env).1 = 7
    ∧ (C9_task.getInfo C9_env).1.usStackHighWaterMark = 100
    ∧ (7 : Int) ≠ 100 := by
  refine ⟨fun env t => rfl, rfl, by decide, by decide⟩

/-- Claim C10: receiveFromISR() discards the kernel status: on an empty
queue the kernel reports failure, yet the method still returns a value of
type T - exactly the indeterminate content of its uninitialised local
buffer, whatever that is - with no indication that nothing was dequeued.
Confirmed: the returned status is pdFALSE and is thrown away, and for
every possible junk buffer content the caller receives precisely that
content, indistinguishable from a successful receive of an equal item. -/
theorem C10_receiveFromISR_discards_status (T : Type) (buffer : T) (len : Nat) :
    (xQueueReceiveFromISR (xQueueCreate T len)).1 = pdFALSE
    ∧ pdFALSE ≠ pdTRUE
    ∧ (Queue.construct T len).receiveFromISR buffer = (buffer, Queue.construct T len) :=
  ⟨rfl, by decide, rfl⟩

end FRW
